import Mathlib

/-!
Verification of the k6 load-test profiles and Next.js API route handlers of
this repository.  Each namespace below embeds the relevant logic of one
source file as executable Lean definitions; the theorems at the end of the
file settle the claims about that logic.

Conventions: JavaScript numbers that hold metric values are modelled as `ℚ`;
wall-clock timestamps (`Date.now()` milliseconds) as `Int`; JavaScript `Map`s
as insertion-ordered association lists; JavaScript truthiness of optional
numbers and strings is modelled explicitly where the source relies on it.
-/

/-- JavaScript `Map.set` on an insertion-ordered association list: update the
value in place when the key is already present (keeping its position), append
a fresh entry otherwise. -/
def jsMapSet {β : Type} (store : List (String × β)) (k : String) (v : β) :
    List (String × β) :=
  if store.any (fun p => p.1 == k) then
    store.map (fun p => if p.1 == k then (k, v) else p)
  else store ++ [(k, v)]

/-- JavaScript `Map.get` on an insertion-ordered association list: the value
stored under the key, `none` (JavaScript `undefined`) when absent. -/
def jsMapGet {β : Type} : List (String × β) → String → Option β
  | [], _ => none
  | p :: ps, k => if p.1 == k then some p.2 else jsMapGet ps k

namespace Stress

/-- Final aggregate HTTP metrics consumed by `stress.js handleSummary`:
overall failure rate, p95/p99 latency, and the optional `slow_requests`
counter value (`metrics.slow_requests?.values.count`, `none` when the metric
is absent). -/
structure Metrics where
  httpReqFailedRate : ℚ
  p95 : ℚ
  p99 : ℚ
  slowRequestsCount : Option ℚ
  deriving DecidableEq

/-- System status labels assigned by `stress.js handleSummary`. -/
inductive SystemStatus
  | HEALTHY
  | WARNING
  | SLOW
  | DEGRADED
  | CRITICAL
  deriving DecidableEq

/-- Severity rank of a status: HEALTHY < WARNING < SLOW < DEGRADED < CRITICAL. -/
def severity : SystemStatus → Nat
  | .HEALTHY => 0
  | .WARNING => 1
  | .SLOW => 2
  | .DEGRADED => 3
  | .CRITICAL => 4

/-- The status chain of `stress.js handleSummary` (lines 205-220). -/
def systemStatus (m : Metrics) : SystemStatus :=
  if m.httpReqFailedRate > 0.5 then .CRITICAL
  else if m.httpReqFailedRate > 0.3 then .DEGRADED
  else if m.p95 > 5000 then .SLOW
  else if m.p99 > 10000 then .WARNING
  else .HEALTHY

/-- Specification-side predicate (from the spec's words, for the refinement
statement): a status tier "matches" the metrics when its own threshold
condition holds; HEALTHY always matches. -/
def statusMatches : SystemStatus → Metrics → Prop
  | .CRITICAL, m => m.httpReqFailedRate > 0.5
  | .DEGRADED, m => m.httpReqFailedRate > 0.3
  | .SLOW, m => m.p95 > 5000
  | .WARNING, m => m.p99 > 10000
  | .HEALTHY, _ => True

/-- The circuit-breaker recommendation string pushed by
`stress.js generateRecommendations`. -/
def circuitBreakerRec : String :=
  "• Implement circuit breakers to handle failures gracefully"

/-- The retry recommendation string pushed by
`stress.js generateRecommendations`. -/
def retryRec : String := "• Add retry logic with exponential backoff"

/-- The `slow_requests` breach condition of `stress.js generateRecommendations`
(line 288): `metrics.slow_requests?.values.count > 100`, false when the metric
is absent (JavaScript `undefined > 100`). -/
def slowBreached : Option ℚ → Bool
  | some c => if c > 100 then true else false
  | none => false

/-- The list of strings pushed by `stress.js generateRecommendations`
(lines 264-293), in push order. -/
def recommendationList (m : Metrics) (status : SystemStatus) : List String :=
  (if m.httpReqFailedRate > 0.1 then
     [circuitBreakerRec, retryRec, "• Scale horizontally to distribute load"]
   else [])
  ++ (if m.p95 > 3000 then
       ["• Optimize database queries and add indexes",
        "• Implement caching layer (Redis/Memcached)",
        "• Consider database read replicas"]
     else [])
  ++ (if status = .CRITICAL ∨ status = .DEGRADED then
       ["• Implement rate limiting to prevent overload",
        "• Add autoscaling based on CPU/memory metrics",
        "• Review and optimize resource-intensive operations"]
     else [])
  ++ (if slowBreached m.slowRequestsCount then
       ["• Analyze slow query logs",
        "• Implement request timeout handling",
        "• Consider async processing for heavy operations"]
     else [])

/-- Fallback text returned by `stress.js generateRecommendations` when no
recommendation was pushed (lines 294-296). -/
def stressFallback : String :=
  "• System performed well under stress\n• Consider current configuration adequate"

/-- Return value of `stress.js generateRecommendations`: the pushed strings
joined by newlines, or the fallback text when none was pushed. -/
def generateRecommendations (m : Metrics) (status : SystemStatus) : String :=
  let recs := recommendationList m status
  if recs.length > 0 then String.intercalate "\n" recs else stressFallback

end Stress

namespace Spike

/-- The three default lines pushed by `spike.js generateSpikeRecommendations`
when no breach-specific recommendation was pushed (lines 387-391). -/
def defaultRecs : List String :=
  ["• System performs well under spike conditions",
   "• Consider current configuration adequate",
   "• Monitor for edge cases in production"]

/-- The breach-conditional strings pushed by
`spike.js generateSpikeRecommendations` (lines 360-385), in push order; the
arguments are `metrics...p(99)`, `spikeErrors`, `avgRecovery`,
`integrityRate` as in the source call. -/
def recList (p99 spikeErrors avgRecovery integrityRate : ℚ) : List String :=
  (if spikeErrors > 100 then
     ["• Implement request queuing to handle bursts",
      "• Add connection pooling and rate limiting",
      "• Configure auto-scaling with aggressive policies"]
   else [])
  ++ (if avgRecovery > 5000 then
       ["• Optimize recovery mechanisms",
        "• Implement health check based routing",
        "• Add circuit breakers for faster recovery"]
     else [])
  ++ (if integrityRate < 0.99 then
       ["• Review transaction handling during high load",
        "• Implement database connection retry logic",
        "• Add data validation layers"]
     else [])
  ++ (if p99 > 10000 then
       ["• Implement request timeout handling",
        "• Add caching layers to reduce load",
        "• Optimize database queries and indexes"]
     else [])

/-- Full recommendation list of `spike.js generateSpikeRecommendations`: the
pushed breach strings, or the three default lines when none was pushed. -/
def generateSpikeRecommendations (p99 spikeErrors avgRecovery integrityRate : ℚ) :
    List String :=
  let recs := recList p99 spikeErrors avgRecovery integrityRate
  if recs.length = 0 then defaultRecs else recs

/-- The two spike/recovery timestamps of `spike.js testData`
(`spikeStartTime`, `recoveryStartTime`), `none` for JavaScript `null`. -/
structure SpikeTimes where
  spikeStartTime : Option Int
  recoveryStartTime : Option Int
  deriving DecidableEq

/-- JavaScript truthiness of a stored timestamp: `null` and `0` are falsy. -/
def truthyTime : Option Int → Bool
  | none => false
  | some t => t != 0

/-- One recovery-probe HTTP exchange of
`spike.js spikeScenarios.measureRecovery`: response status, the reported
`res.timings.duration`, and the wall clock immediately before (`tStart`) and
after (`tEnd`) the request. -/
structure Probe where
  status : Nat
  timingsDuration : ℚ
  tStart : Int
  tEnd : Int
  deriving DecidableEq

/-- `spike.js spikeScenarios.measureRecovery` (lines 167-180): the probe is
responsive when it returns 200 with `timings.duration < 500`; in that case
the sample added to the `recovery_time` Trend is the probe's own wall-clock
latency `Date.now() - start`.  Returns (responsive?, Trend sample if any). -/
def measureRecovery (p : Probe) : Bool × Option Int :=
  if p.status = 200 ∧ p.timingsDuration < 500 then (true, some (p.tEnd - p.tStart))
  else (false, none)

/-- The recovery branch of `spike.js default` (lines 206-222): entering the
non-spike path at wall clock `tEntry`, set `recoveryStartTime` if a spike is
pending and it is unset; then, if `recoveryStartTime` is truthy, run one
recovery probe (appending its Trend sample, if any, to `trend`) and, when the
probe is responsive and more than 5000 ms have passed since
`recoveryStartTime` at the check clock `tCheck`, clear both timestamps. -/
def recoveryBranch (st0 : SpikeTimes) (trend : List Int) (tEntry : Int)
    (p : Probe) (tCheck : Int) : SpikeTimes × List Int :=
  let st1 := if truthyTime st0.spikeStartTime && !truthyTime st0.recoveryStartTime
             then { st0 with recoveryStartTime := some tEntry } else st0
  match st1.recoveryStartTime with
  | some r =>
      if r ≠ 0 then
        let probeResult := measureRecovery p
        let trend1 := trend ++ probeResult.2.toList
        if probeResult.1 = true ∧ tCheck - r > 5000 then
          (⟨none, none⟩, trend1)
        else (st1, trend1)
      else (st1, trend)
  | none => (st1, trend)

/-- The payload originally submitted for a created post
(`spike.js writeSpike postData`, title/content part used by the integrity
comparison). -/
structure PostData where
  title : String
  content : String
  deriving DecidableEq

/-- Result of `JSON.parse` on an integrity-refetch response body: either the
parse throws, or it yields an envelope with a `success` flag and an optional
`data` object carrying title/content. -/
inductive Envelope
  | unparseable
  | parsed (success : Bool) (data : Option PostData)
  deriving DecidableEq

/-- An integrity-refetch HTTP response: status plus parsed body. -/
structure FetchResponse where
  status : Nat
  body : Envelope
  deriving DecidableEq

/-- The shared `spike.js testData` registries used by the integrity check:
`createdPosts` (id to originally-submitted payload, insertion ordered) and
`verifiedPosts` (ids confirmed to round-trip). -/
structure IntegrityState where
  createdPosts : List (String × PostData)
  verifiedPosts : List String
  deriving DecidableEq

/-- `spike.js spikeScenarios.verifyDataIntegrity` (lines 127-164), with the
random draw resolved to `randomId`: returns the new state and the
`data_integrity` Rate observation, if one was recorded.  An empty registry, a
missing original payload, or an already-verified id return early; a 200
response is parsed (a parse exception records 0); a parsed envelope carrying
`success` and `data` records the title/content comparison and, on success,
adds the id to `verifiedPosts`; a non-200 response records 0. -/
def verifyDataIntegrity (st : IntegrityState) (randomId : String)
    (resp : FetchResponse) : IntegrityState × Option ℚ :=
  if st.createdPosts.length = 0 then (st, none)
  else
    match jsMapGet st.createdPosts randomId with
    | none => (st, none)
    | some originalData =>
      if st.verifiedPosts.contains randomId then (st, none)
      else if resp.status = 200 then
        match resp.body with
        | .unparseable => (st, some 0)
        | .parsed success data =>
          match data with
          | some d =>
            if success then
              if d.title == originalData.title && d.content == originalData.content then
                ({ st with verifiedPosts := randomId :: st.verifiedPosts }, some 1)
              else (st, some 0)
            else (st, none)
          | none => (st, none)
      else (st, some 0)

/-- Repeated invocations of the integrity-check scenario on the same resolved
id, one per listed response; returns the final state and all recorded
`data_integrity` observations in order. -/
def runIntegrity (st : IntegrityState) (randomId : String) :
    List FetchResponse → IntegrityState × List ℚ
  | [] => (st, [])
  | r :: rs =>
    let step := verifyDataIntegrity st randomId r
    let rest := runIntegrity step.1 randomId rs
    (rest.1, step.2.toList ++ rest.2)

end Spike

namespace Soak

/-- k6 Trend maximum as read by `soak.js handleSummary`
(`metrics.memory_usage?.values.max || 0`): 0 when the trace is empty. -/
def traceMax : List ℚ → ℚ
  | [] => 0
  | x :: xs => xs.foldl max x

/-- k6 Trend minimum as read by `soak.js handleSummary`
(`metrics.memory_usage?.values.min || 0`): 0 when the trace is empty. -/
def traceMin : List ℚ → ℚ
  | [] => 0
  | x :: xs => xs.foldl min x

/-- `soak.js handleSummary` (line 294): `memoryGrowth = maxMemory - minMemory`
over the recorded memory trace. -/
def memoryGrowthOf (trace : List ℚ) : ℚ := traceMax trace - traceMin trace

/-- Growth-per-hour normalisation of `soak.js assessStability` (line 364):
`(memoryGrowth / duration) * 60`, `duration` in minutes. -/
def memoryGrowthPerHour (memoryGrowth duration : ℚ) : ℚ :=
  memoryGrowth / duration * 60

/-- Stable-tier line of `soak.js assessStability`. -/
def stableLine : String := "✅ Memory usage stable (< 10MB/hour growth)"

/-- Moderate-tier line of `soak.js assessStability`. -/
def moderateLine : String := "⚠️ Moderate memory growth detected (10-50MB/hour)"

/-- Leak-suspected-tier line of `soak.js assessStability`. -/
def leakLine : String := "❌ Significant memory growth (> 50MB/hour) - possible leak"

/-- The memory-tier chain of `soak.js assessStability` (lines 365-371),
applied to the growth-per-hour figure. -/
def memoryStabilityLine (g : ℚ) : String :=
  if g < 10 then stableLine
  else if g < 50 then moderateLine
  else leakLine

/-- JavaScript falsiness of a stored baseline number: absent (`null`) and `0`
are falsy, as tested by `!testState.initialMetrics.responseTime` and
`!testState.initialMetrics.memoryUsage` in `soak.js`. -/
def falsyNum : Option ℚ → Bool
  | none => true
  | some x => x == 0

/-- `soak.js soakScenarios.trackPerformanceDegradation` (lines 204-218),
baseline and Rate part: measures `responseTime = tEnd - tStart`, sets the
response-time baseline when it is falsy, then records a
`performance_degradation` observation (1 when the relative degradation
against the baseline exceeds 0.2, else 0).  Returns (new baseline,
observation). -/
def trackPerformanceDegradation (init : Option ℚ) (tStart tEnd : ℚ) :
    Option ℚ × ℚ :=
  let responseTime := tEnd - tStart
  let init1 := if falsyNum init then some responseTime else init
  let degradation := (responseTime - init1.getD 0) / init1.getD 0
  (init1, if degradation > 0.2 then 1 else 0)

/-- Iterated `trackPerformanceDegradation` over successive requests, each
given by its (start, end) clock pair; returns the final response-time
baseline. -/
def foldTrack (init : Option ℚ) : List (ℚ × ℚ) → Option ℚ
  | [] => init
  | c :: cs => foldTrack (trackPerformanceDegradation init c.1 c.2).1 cs

/-- Result of `JSON.parse` on a `/api/health` body as used by
`soak.js soakScenarios.monitorSystemHealth`: either the parse throws, or it
yields an envelope whose `memory.heapUsed` is the given optional number
(`none` when `health.memory` or `health.memory.heapUsed` is absent). -/
inductive HealthBody
  | unparseable
  | parsed (heapUsed : Option ℚ)
  deriving DecidableEq

/-- `soak.js soakScenarios.monitorSystemHealth` (lines 167-201), memory part:
on a 200 response whose parsed body carries a truthy `memory.heapUsed`,
compute `memoryMB = heapUsed / 1024 / 1024`, record it into the memory Trend
and Gauge, and set the memory baseline when it is falsy.  Returns (new
baseline, Trend sample if any).  The downstream leak-suspicion counter reads
but never writes the baseline and is not modelled here. -/
def monitorSystemHealth (init : Option ℚ) (status : Nat) (body : HealthBody) :
    Option ℚ × Option ℚ :=
  if status = 200 then
    match body with
    | .unparseable => (init, none)
    | .parsed heapUsed =>
      match heapUsed with
      | some h =>
        if h ≠ 0 then
          let memoryMB := h / 1024 / 1024
          let init1 := if falsyNum init then some memoryMB else init
          (init1, some memoryMB)
        else (init, none)
      | none => (init, none)
  else (init, none)

/-- One invocation of `soak.js soakScenarios.resourceIntensiveTask` as seen by
the data cache: the generated task id, whether the heavy request succeeded,
and the response body (`none` for a null body). -/
structure TaskCall where
  taskId : String
  success : Bool
  body : Option String
  deriving DecidableEq

/-- `soak.js soakScenarios.resourceIntensiveTask` (lines 135-164), dataCache
part: on a successful response with a truthy body, cache the body under the
task id; if the cache then holds more than 100 entries, delete the oldest
(first-inserted) key.  `Map` keys are unique, so deleting the first key drops
the head entry of the insertion-ordered list. -/
def resourceIntensiveTask (cache : List (String × String)) (taskId : String)
    (success : Bool) (body : Option String) : List (String × String) :=
  match body with
  | some b =>
    if success && b != "" then
      let c1 := jsMapSet cache taskId b
      if c1.length > 100 then c1.tail else c1
    else cache
  | none => cache

/-- A sequence of `resourceIntensiveTask` invocations folded over the cache. -/
def runTasks (cache : List (String × String)) :
    List TaskCall → List (String × String)
  | [] => cache
  | c :: cs => runTasks (resourceIntensiveTask cache c.taskId c.success c.body) cs

end Soak

namespace Routes

/-- Response envelope of the view/like counter endpoints: HTTP status,
`success` flag, and the returned count. -/
structure CounterResponse where
  status : Nat
  success : Bool
  count : Nat
  deriving DecidableEq

/-- `POST /api/posts/[id]/view` (`view/route.ts` lines 6-19): read the current
count for the id (`viewCounts.get(params.id) || 0`), store count + 1, and
respond 200 `success: true` with the incremented count; the handler has no
not-found branch. -/
def postView (store : List (String × Nat)) (id : String) :
    List (String × Nat) × CounterResponse :=
  let currentViews := (jsMapGet store id).getD 0
  (jsMapSet store id (currentViews + 1), ⟨200, true, currentViews + 1⟩)

/-- `POST /api/posts/[id]/like` (`like/route.ts` lines 6-19): identical logic
to the view endpoint over the `likeCounts` store. -/
def postLike (store : List (String × Nat)) (id : String) :
    List (String × Nat) × CounterResponse :=
  let currentLikes := (jsMapGet store id).getD 0
  (jsMapSet store id (currentLikes + 1), ⟨200, true, currentLikes + 1⟩)

/-- The view store after `n` view invocations for the same id. -/
def viewTimes (store : List (String × Nat)) (id : String) :
    Nat → List (String × Nat)
  | 0 => store
  | n + 1 => (postView (viewTimes store id n) id).1

/-- A stored user record of the users route (`src/unnamed/part_002`). -/
structure User where
  id : String
  name : String
  email : String
  avatar : String
  deriving DecidableEq

/-- Parsed JSON body submitted to `POST /api/users`; absent fields are `none`
(JavaScript `undefined`). -/
structure UserBody where
  name : Option String
  email : Option String
  avatar : Option String
  deriving DecidableEq

/-- JavaScript falsiness of an optional string field: absent or empty. -/
def falsyStr : Option String → Bool
  | none => true
  | some s => s == ""

/-- Outcome of one `POST /api/users` call: HTTP status, `success` flag of the
JSON envelope, and the stored user list after the call. -/
structure UsersPostResult where
  status : Nat
  success : Bool
  users : List User
  deriving DecidableEq

/-- `POST /api/users` (`src/unnamed/part_002` lines 41-82): a body that fails
to parse (`none`) hits the catch branch and returns 400; a falsy `name` or
`email` returns 400; an email equal to an existing user's returns 409;
otherwise a new user with id `user-` followed by `Date.now()` is appended and
201 returned, with `avatar` defaulting when falsy. -/
def postUsers (users : List User) (body : Option UserBody) (now : Int) :
    UsersPostResult :=
  match body with
  | none => ⟨400, false, users⟩
  | some b =>
    if falsyStr b.name || falsyStr b.email then ⟨400, false, users⟩
    else
      match b.name, b.email with
      | some nm, some em =>
        if users.any (fun u => u.email == em) then ⟨409, false, users⟩
        else
          let avatar := match b.avatar with
            | some a => if a != "" then a
                        else "https://i.pravatar.cc/150?img=" ++ toString now
            | none => "https://i.pravatar.cc/150?img=" ++ toString now
          ⟨201, true, users ++ [⟨"user-" ++ toString now, nm, em, avatar⟩]⟩
      | _, _ => ⟨400, false, users⟩

end Routes

/-!  Theorems.  -/

/-- Claim C2: for every final stress metrics input, `handleSummary`'s status
is the worst tier whose threshold condition matches, in the severity order
HEALTHY < WARNING < SLOW < DEGRADED < CRITICAL; and whenever the overall
failure rate exceeds 0.5 the status is CRITICAL and the generated
recommendation list contains the circuit-breaker and retry recommendations. -/
theorem C2_stress_worst_match_and_critical :
    (∀ m : Stress.Metrics,
        Stress.statusMatches (Stress.systemStatus m) m ∧
        ∀ s, Stress.statusMatches s m →
          Stress.severity s ≤ Stress.severity (Stress.systemStatus m)) ∧
    (∀ m : Stress.Metrics, m.httpReqFailedRate > 0.5 →
        Stress.systemStatus m = .CRITICAL ∧
        Stress.circuitBreakerRec ∈ Stress.recommendationList m (Stress.systemStatus m) ∧
        Stress.retryRec ∈ Stress.recommendationList m (Stress.systemStatus m)) := by
  constructor
  · intro m
    constructor
    · unfold Stress.systemStatus
      split_ifs with h1 h2 h3 h4 <;> simp [Stress.statusMatches] <;> assumption
    · intro s hs
      unfold Stress.systemStatus
      cases s <;> simp only [Stress.statusMatches] at hs <;>
        split_ifs with h1 h2 h3 h4 <;>
        first
          | decide
          | exact absurd hs h1
          | exact absurd hs h2
          | exact absurd hs h3
          | exact absurd hs h4
  · intro m hm
    have hcrit : Stress.systemStatus m = .CRITICAL := by
      unfold Stress.systemStatus
      rw [if_pos hm]
    refine ⟨hcrit, ?_, ?_⟩ <;>
      · unfold Stress.recommendationList
        rw [if_pos (show m.httpReqFailedRate > 0.1 by linarith)]
        simp

/-- Witness for C2 at a concrete metrics record with failure rate 0.6. -/
theorem C2_stress_worst_match_and_critical_witness :
    Stress.severity .CRITICAL ≤ Stress.severity (Stress.systemStatus ⟨0.6, 0, 0, none⟩) ∧
    Stress.systemStatus ⟨0.6, 0, 0, none⟩ = .CRITICAL ∧
    Stress.circuitBreakerRec ∈
      Stress.recommendationList ⟨0.6, 0, 0, none⟩ (Stress.systemStatus ⟨0.6, 0, 0, none⟩) ∧
    Stress.retryRec ∈
      Stress.recommendationList ⟨0.6, 0, 0, none⟩ (Stress.systemStatus ⟨0.6, 0, 0, none⟩) := by
  refine ⟨?_, ?_⟩
  · exact (C2_stress_worst_match_and_critical.1 ⟨0.6, 0, 0, none⟩).2 .CRITICAL
      (by norm_num [Stress.statusMatches])
  · exact C2_stress_worst_match_and_critical.2 ⟨0.6, 0, 0, none⟩ (by norm_num)

/-- Claim C3, counterexample: with no secondary threshold breached
(spike-error count 0, recovery 0 ms, integrity rate 1, p99 0 ms), the spike
profile's recommendation list holds the three default lines, so it is not a
single "no action needed" message. -/
theorem C3_counterexample :
    (Spike.generateSpikeRecommendations 0 0 0 1).length = 3 ∧
    (Spike.generateSpikeRecommendations 0 0 0 1).length ≠ 1 := by
  norm_num [Spike.generateSpikeRecommendations, Spike.recList, Spike.defaultRecs]

/-- Claim C3 as amended: when no secondary threshold is breached, the
recommendations output is non-empty and equal to a fixed "no action needed"
text — the three default lines in the spike profile, and the two-line
fallback string in the stress profile — rather than a single message. -/
theorem C3_no_breach_default_recommendations :
    (∀ p99 spikeErrors avgRecovery integrityRate : ℚ,
        spikeErrors ≤ 100 → avgRecovery ≤ 5000 → 0.99 ≤ integrityRate → p99 ≤ 10000 →
        Spike.generateSpikeRecommendations p99 spikeErrors avgRecovery integrityRate
            = Spike.defaultRecs ∧
        Spike.generateSpikeRecommendations p99 spikeErrors avgRecovery integrityRate ≠ []) ∧
    (∀ m : Stress.Metrics,
        m.httpReqFailedRate ≤ 0.1 → m.p95 ≤ 3000 →
        Stress.slowBreached m.slowRequestsCount = false →
        Stress.generateRecommendations m (Stress.systemStatus m) = Stress.stressFallback) ∧
    Stress.stressFallback ≠ "" := by
  refine ⟨?_, ?_, by decide⟩
  · intro p99 se ar ir h1 h2 h3 h4
    have hl : Spike.recList p99 se ar ir = [] := by
      unfold Spike.recList
      rw [if_neg (by linarith), if_neg (by linarith), if_neg (by linarith),
        if_neg (by linarith)]
      rfl
    refine ⟨?_, ?_⟩
    · unfold Spike.generateSpikeRecommendations
      rw [hl]
      rfl
    · unfold Spike.generateSpikeRecommendations
      rw [hl]
      simp [Spike.defaultRecs]
  · intro m h1 h2 h3
    have hstatus : Stress.systemStatus m ≠ .CRITICAL ∧ Stress.systemStatus m ≠ .DEGRADED := by
      unfold Stress.systemStatus
      split_ifs with ha hb hc hd
      · exact absurd ha (by linarith)
      · exact absurd hb (by linarith)
      · exact absurd hc (by linarith)
      · decide
      · decide
    have hl : Stress.recommendationList m (Stress.systemStatus m) = [] := by
      unfold Stress.recommendationList
      rw [if_neg (by linarith : ¬ m.httpReqFailedRate > 0.1),
        if_neg (by linarith : ¬ m.p95 > 3000),
        if_neg (by simp [hstatus.1, hstatus.2])]
      simp [h3]
    unfold Stress.generateRecommendations
    rw [hl]
    rfl

/-- Witness for C3 at concrete no-breach inputs for both profiles. -/
theorem C3_no_breach_default_recommendations_witness :
    Spike.generateSpikeRecommendations 0 0 0 1 = Spike.defaultRecs ∧
    Stress.generateRecommendations ⟨0, 0, 0, none⟩ (Stress.systemStatus ⟨0, 0, 0, none⟩)
      = Stress.stressFallback := by
  constructor
  · exact (C3_no_breach_default_recommendations.1 0 0 0 1 (by norm_num) (by norm_num)
      (by norm_num) (by norm_num)).1
  · exact C3_no_breach_default_recommendations.2.1 ⟨0, 0, 0, none⟩ (by norm_num)
      (by norm_num) rfl

/-- Claim C1, counterexample: a RECOVERING-to-NORMAL transition fires
(responsive probe, dwell 10060 - 1000 > 5000 ms) and both timestamps are
cleared, but the sample recorded into the `recovery_time` Trend is the
probe's own latency (10050 - 10000 = 50 ms), not the elapsed
`recoveryStartedAt` to now duration (9060 ms), which appears nowhere in the
register. -/
theorem C1_counterexample :
    Spike.recoveryBranch ⟨some 1000, some 1000⟩ [] 9000 ⟨200, 100, 10000, 10050⟩ 10060
      = (⟨none, none⟩, [50]) ∧
    (10060 : Int) - 1000 = 9060 ∧
    (9060 : Int) ∉
      (Spike.recoveryBranch ⟨some 1000, some 1000⟩ [] 9000 ⟨200, 100, 10000, 10050⟩ 10060).2 := by
  refine ⟨by decide, by decide, by decide⟩

/-- Claim C1 as amended: when the RECOVERING-to-NORMAL transition fires (the
recovery probe is responsive and more than 5 s have passed since
`recoveryStartedAt`), both spikeWindow timestamps are cleared, permitting a
new cycle; the sample appended to the `recovery_time` Trend register by the
probe is the probe's own wall-clock latency — the elapsed
`recoveryStartedAt` to now duration is only logged, never recorded. -/
theorem C1_transition_clears_records_probe_latency :
    ∀ (sst : Option Int) (r : Int) (trend : List Int) (tEntry : Int)
      (p : Spike.Probe) (tCheck : Int),
      r ≠ 0 →
      p.status = 200 → p.timingsDuration < 500 →
      tCheck - r > 5000 →
      Spike.recoveryBranch ⟨sst, some r⟩ trend tEntry p tCheck
        = (⟨none, none⟩, trend ++ [p.tEnd - p.tStart]) := by
  intro sst r trend tEntry p tCheck hr hs hd hdwell
  unfold Spike.recoveryBranch Spike.measureRecovery
  simp [Spike.truthyTime, hr, hs, hd, hdwell]

/-- Witness for C1 at the concrete transition instance of the
counterexample's shape. -/
theorem C1_transition_clears_records_probe_latency_witness :
    Spike.recoveryBranch ⟨some 1000, some 1000⟩ [] 9000 ⟨200, 100, 10000, 10050⟩ 10060
      = (⟨none, none⟩, [] ++ [(10050 : Int) - 10000]) := by
  exact C1_transition_clears_records_probe_latency (some 1000) 1000 [] 9000
    ⟨200, 100, 10000, 10050⟩ 10060 (by decide) rfl (by norm_num) (by decide)

/-- Claim C4, counterexample: at a growth of exactly 50 MB over 60 minutes the
growth-per-hour is exactly 50 — inside the claim's moderate band 10-50 and
not > 50 — yet `assessStability` classifies it into the leak-suspected tier. -/
theorem C4_counterexample :
    Soak.memoryGrowthPerHour 50 60 = 50 ∧
    ¬ ((50 : ℚ) > 50) ∧
    Soak.memoryStabilityLine (Soak.memoryGrowthPerHour 50 60) = Soak.leakLine ∧
    Soak.leakLine ≠ Soak.moderateLine := by
  have h : Soak.memoryGrowthPerHour 50 60 = 50 := by
    norm_num [Soak.memoryGrowthPerHour]
  refine ⟨h, by norm_num, ?_, by decide⟩
  rw [h]
  norm_num [Soak.memoryStabilityLine]

/-- Claim C4 as amended: growth-per-hour is `memoryGrowth / elapsedMinutes *
60` with `memoryGrowth` the max minus min of the memory trace, bucketed into
stable when < 10 MB/h, moderate when in [10, 50) MB/h, and leak-suspected
when ≥ 50 MB/h (not only > 50); a trace rising from 100 MB to 160 MB over 60
minutes gives growth-per-hour 60 and is classified leak-suspected. -/
theorem C4_memory_leak_tiers :
    (∀ g : ℚ,
        (g < 10 → Soak.memoryStabilityLine g = Soak.stableLine) ∧
        (10 ≤ g → g < 50 → Soak.memoryStabilityLine g = Soak.moderateLine) ∧
        (50 ≤ g → Soak.memoryStabilityLine g = Soak.leakLine)) ∧
    Soak.memoryGrowthOf [100, 120, 140, 160] = 60 ∧
    Soak.memoryGrowthPerHour 60 60 = 60 ∧
    Soak.memoryStabilityLine (Soak.memoryGrowthPerHour 60 60) = Soak.leakLine := by
  have hgph : Soak.memoryGrowthPerHour 60 60 = 60 := by
    norm_num [Soak.memoryGrowthPerHour]
  refine ⟨?_, ?_, hgph, ?_⟩
  · intro g
    refine ⟨?_, ?_, ?_⟩
    · intro h
      unfold Soak.memoryStabilityLine
      rw [if_pos h]
    · intro h1 h2
      unfold Soak.memoryStabilityLine
      rw [if_neg (by linarith), if_pos h2]
    · intro h
      unfold Soak.memoryStabilityLine
      rw [if_neg (by linarith), if_neg (by linarith)]
  · norm_num [Soak.memoryGrowthOf, Soak.traceMax, Soak.traceMin]
  · rw [hgph]
    norm_num [Soak.memoryStabilityLine]

/-- Witness for C4 on one concrete growth figure per tier. -/
theorem C4_memory_leak_tiers_witness :
    Soak.memoryStabilityLine 5 = Soak.stableLine ∧
    Soak.memoryStabilityLine 30 = Soak.moderateLine ∧
    Soak.memoryStabilityLine 60 = Soak.leakLine := by
  refine ⟨?_, ?_, ?_⟩
  · exact (C4_memory_leak_tiers.1 5).1 (by norm_num)
  · exact (C4_memory_leak_tiers.1 30).2.1 (by norm_num) (by norm_num)
  · exact (C4_memory_leak_tiers.1 60).2.2 (by norm_num)

/-- Claim C5: for an id already in `verifiedPosts`, any number of further
integrity-check invocations resolving to that id leave the state unchanged
and record no `data_integrity` observation. -/
theorem C5_integrity_verified_idempotent :
    ∀ (st : Spike.IntegrityState) (id : String)
      (resps : List Spike.FetchResponse),
      st.verifiedPosts.contains id = true →
      Spike.runIntegrity st id resps = (st, []) := by
  intro st id resps hmem
  have hstep : ∀ r : Spike.FetchResponse,
      Spike.verifyDataIntegrity st id r = (st, none) := by
    intro r
    unfold Spike.verifyDataIntegrity
    by_cases h0 : st.createdPosts.length = 0
    · rw [if_pos h0]
    · rw [if_neg h0]
      cases hl : jsMapGet st.createdPosts id with
      | none => rfl
      | some orig =>
        dsimp only
        rw [if_pos hmem]
  induction resps with
  | nil => rfl
  | cons r rs ih =>
    unfold Spike.runIntegrity
    rw [hstep r]
    simp [ih]

/-- Witness for C5: one repeat invocation on a verified id is a no-op. -/
theorem C5_integrity_verified_idempotent_witness :
    Spike.runIntegrity ⟨[("p1", ⟨"t", "c"⟩)], ["p1"]⟩ "p1"
        [⟨200, .parsed true (some ⟨"t", "c"⟩)⟩, ⟨200, .unparseable⟩]
      = (⟨[("p1", ⟨"t", "c"⟩)], ["p1"]⟩, []) := by
  exact C5_integrity_verified_idempotent ⟨[("p1", ⟨"t", "c"⟩)], ["p1"]⟩ "p1"
    [⟨200, .parsed true (some ⟨"t", "c"⟩)⟩, ⟨200, .unparseable⟩] (by decide)

/-- Claim C6, counterexample: a performed refetch (non-empty registry, id
present and unverified) returning 200 with a body that parses to an envelope
without the expected `success`/`data` fields records NO observation into the
integrity Rate register — not a failure observation, and not exactly one
observation. -/
theorem C6_counterexample :
    Spike.verifyDataIntegrity ⟨[("p1", ⟨"t", "c"⟩)], []⟩ "p1"
        ⟨200, .parsed false none⟩
      = (⟨[("p1", ⟨"t", "c"⟩)], []⟩, none) ∧
    (none : Option ℚ) ≠ some 0 := by
  exact ⟨by decide, by decide⟩

/-- Claim C6 as amended: for a performed refetch (registry non-empty, id
present, unverified), a 200 response with an unparseable body records a
failure observation (0) and leaves the state unchanged, and a non-200
response records 0; but a 200 response whose body parses to an envelope
lacking the `success`/`data` fields records no observation at all; every
other performed refetch records exactly one boolean observation; execution
never throws (the function is total). -/
theorem C6_refetch_observation_cases :
    ∀ (st : Spike.IntegrityState) (id : String) (orig : Spike.PostData)
      (resp : Spike.FetchResponse),
      jsMapGet st.createdPosts id = some orig →
      st.verifiedPosts.contains id = false →
      ((resp.status = 200 → resp.body = .unparseable →
          Spike.verifyDataIntegrity st id resp = (st, some 0)) ∧
       (resp.status ≠ 200 →
          Spike.verifyDataIntegrity st id resp = (st, some 0)) ∧
       (∀ s, resp.status = 200 → resp.body = .parsed s none →
          Spike.verifyDataIntegrity st id resp = (st, none)) ∧
       (∀ d, resp.status = 200 → resp.body = .parsed false (some d) →
          Spike.verifyDataIntegrity st id resp = (st, none)) ∧
       (∀ d, resp.status = 200 → resp.body = .parsed true (some d) →
          ∃ o : ℚ, (Spike.verifyDataIntegrity st id resp).2 = some o ∧
            (o = 0 ∨ o = 1))) := by
  intro st id orig resp hget hunver
  have h0 : ¬ st.createdPosts.length = 0 := by
    intro h
    rw [List.length_eq_zero] at h
    rw [h] at hget
    exact Option.noConfusion hget
  have hbase : ∀ res : Spike.IntegrityState × Option ℚ,
      ((if resp.status = 200 then
        match resp.body with
        | .unparseable => (st, some 0)
        | .parsed success data =>
          match data with
          | some d =>
            if success then
              if d.title == orig.title && d.content == orig.content then
                ({ st with verifiedPosts := id :: st.verifiedPosts }, some 1)
              else (st, some 0)
            else (st, none)
          | none => (st, none)
      else (st, some 0) : Spike.IntegrityState × Option ℚ)) = res →
      Spike.verifyDataIntegrity st id resp = res := by
    intro res hres
    unfold Spike.verifyDataIntegrity
    rw [if_neg h0, hget]
    dsimp only
    rw [if_neg (by rw [hunver]; exact Bool.false_ne_true)]
    exact hres
  refine ⟨?_, ?_, ?_, ?_, ?_⟩
  · intro hs hb
    exact hbase _ (by rw [if_pos hs, hb])
  · intro hs
    exact hbase _ (by rw [if_neg hs])
  · intro s hs hb
    exact hbase _ (by rw [if_pos hs, hb] <;> rfl)
  · intro d hs hb
    exact hbase _ (by rw [if_pos hs, hb] <;> rfl)
  · intro d hs hb
    by_cases hv : (d.title == orig.title && d.content == orig.content) = true
    · refine ⟨1, ?_, Or.inr rfl⟩
      have := hbase ({ st with verifiedPosts := id :: st.verifiedPosts }, some 1)
        (by rw [if_pos hs, hb]; dsimp only; rw [if_pos rfl, if_pos hv])
      rw [this]
    · refine ⟨0, ?_, Or.inl rfl⟩
      have := hbase (st, some 0)
        (by rw [if_pos hs, hb]; dsimp only; rw [if_pos rfl, if_neg hv])
      rw [this]

/-- Witness for C6 at concrete performed refetches: an unparseable 200 body
records 0; a parsed envelope lacking `success`/`data` records nothing. -/
theorem C6_refetch_observation_cases_witness :
    Spike.verifyDataIntegrity ⟨[("p1", ⟨"t", "c"⟩)], []⟩ "p1" ⟨200, .unparseable⟩
      = (⟨[("p1", ⟨"t", "c"⟩)], []⟩, some 0) ∧
    Spike.verifyDataIntegrity ⟨[("p1", ⟨"t", "c"⟩)], []⟩ "p1" ⟨500, .unparseable⟩
      = (⟨[("p1", ⟨"t", "c"⟩)], []⟩, some 0) := by
  constructor
  · exact (C6_refetch_observation_cases ⟨[("p1", ⟨"t", "c"⟩)], []⟩ "p1" ⟨"t", "c"⟩
      ⟨200, .unparseable⟩ (by decide) (by decide)).1 rfl rfl
  · exact (C6_refetch_observation_cases ⟨[("p1", ⟨"t", "c"⟩)], []⟩ "p1" ⟨"t", "c"⟩
      ⟨500, .unparseable⟩ (by decide) (by decide)).2.1 (by decide)

/-- Claim C7, counterexample: a first performance-tracking invocation that
observes a 0 ms response time sets the baseline to 0, and the next
invocation (5 ms) overwrites it — the baseline is not "set exactly once by
the first writer" for every possible sequence of observed values. -/
theorem C7_counterexample :
    (Soak.trackPerformanceDegradation none 1000 1000).1 = some 0 ∧
    (Soak.trackPerformanceDegradation (some 0) 2000 2005).1 = some 5 ∧
    (0 : ℚ) ≠ 5 := by
  refine ⟨?_, ?_, by norm_num⟩ <;>
    norm_num [Soak.trackPerformanceDegradation, Soak.falsyNum]

/-- Claim C7 as amended: the Run-State Tracker baseline fields are set by the
first writer whose observed value is truthy (nonzero) and are never
overwritten afterwards; a first-observed response time of 0 ms is treated as
unset and is overwritten by the next observation.  Concretely: a non-falsy
response-time baseline survives any further tracking invocations; a
non-falsy memory baseline survives any health-monitor invocation; the memory
baseline is only ever set to a nonzero value (the heapUsed guard is truthy);
and the response-time baseline after a first nonzero observation `x` is
`some x` regardless of later observations. -/
theorem C7_baseline_first_nonzero_writer :
    (∀ (init : Option ℚ) (cs : List (ℚ × ℚ)),
        Soak.falsyNum init = false → Soak.foldTrack init cs = init) ∧
    (∀ (init : Option ℚ) (status : Nat) (body : Soak.HealthBody),
        Soak.falsyNum init = false →
        (Soak.monitorSystemHealth init status body).1 = init) ∧
    (∀ (status : Nat) (body : Soak.HealthBody) (v : ℚ),
        (Soak.monitorSystemHealth none status body).1 = some v → v ≠ 0) ∧
    (∀ (t x : ℚ) (cs : List (ℚ × ℚ)), x ≠ 0 →
        Soak.foldTrack none ((t, t + x) :: cs) = some x) := by
  have h1 : ∀ (init : Option ℚ) (cs : List (ℚ × ℚ)),
      Soak.falsyNum init = false → Soak.foldTrack init cs = init := by
    intro init cs h
    induction cs with
    | nil => rfl
    | cons c cs ih =>
      unfold Soak.foldTrack
      have hkeep : (Soak.trackPerformanceDegradation init c.1 c.2).1 = init := by
        unfold Soak.trackPerformanceDegradation
        simp [h]
      rw [hkeep]
      exact ih
  refine ⟨h1, ?_, ?_, ?_⟩
  · intro init status body h
    unfold Soak.monitorSystemHealth
    by_cases hs : status = 200
    · rw [if_pos hs]
      cases body with
      | unparseable => rfl
      | parsed heapUsed =>
        cases heapUsed with
        | none => rfl
        | some hval =>
          dsimp only
          by_cases hz : hval ≠ 0
          · rw [if_pos hz]
            simp [h]
          · rw [if_neg hz]
    · rw [if_neg hs]
  · intro status body v heq
    unfold Soak.monitorSystemHealth at heq
    by_cases hs : status = 200
    · rw [if_pos hs] at heq
      cases body with
      | unparseable => exact absurd heq (by simp)
      | parsed heapUsed =>
        cases heapUsed with
        | none => exact absurd heq (by simp)
        | some hval =>
          dsimp only at heq
          by_cases hz : hval ≠ 0
          · rw [if_pos hz] at heq
            simp [Soak.falsyNum] at heq
            intro hv
            rw [hv] at heq
            apply hz
            have h1024 : (1024 : ℚ) ≠ 0 := by norm_num
            field_simp at heq
            exact heq
          · rw [if_neg hz] at heq
            exact absurd heq (by simp)
    · rw [if_neg hs] at heq
      exact absurd heq (by simp)
  · intro t x cs hx
    have hstep : (Soak.trackPerformanceDegradation none t (t + x)).1 = some x := by
      unfold Soak.trackPerformanceDegradation
      simp [Soak.falsyNum]
    unfold Soak.foldTrack
    rw [hstep]
    exact h1 (some x) cs (by simp [Soak.falsyNum, hx])

/-- Witness for C7: a nonzero baseline (7) survives two further
invocations, and a run whose first observation is 5 ms fixes the baseline
at 5. -/
theorem C7_baseline_first_nonzero_writer_witness :
    Soak.foldTrack (some 7) [(0, 3), (10, 12)] = some 7 ∧
    Soak.foldTrack none [(100, 105), (200, 220)] = some 5 := by
  constructor
  · exact C7_baseline_first_nonzero_writer.1 (some 7) [(0, 3), (10, 12)]
      (by norm_num [Soak.falsyNum])
  · have h := C7_baseline_first_nonzero_writer.2.2.2 100 5 [(200, 220)] (by norm_num)
    norm_num at h
    exact h

/-- Helper: `jsMapSet` grows the store by at most one entry. -/
theorem jsMapSet_length_le {β : Type} (store : List (String × β)) (k : String)
    (v : β) : (jsMapSet store k v).length ≤ store.length + 1 := by
  unfold jsMapSet
  split_ifs <;> simp

/-- Claim C8: the resource-intensive-task data cache holds at most 100
entries at the end of every invocation (for any invocation sequence starting
from the empty cache, and more generally whenever it starts within bounds),
and when an insertion into a full cache overflows, the entry evicted is the
oldest (first-inserted) one: the cache head is dropped and the new entry is
appended at the back. -/
theorem C8_cache_bounded_evicts_oldest :
    (∀ (cache : List (String × String)) (taskId : String) (success : Bool)
        (body : Option String), cache.length ≤ 100 →
        (Soak.resourceIntensiveTask cache taskId success body).length ≤ 100) ∧
    (∀ calls : List Soak.TaskCall, (Soak.runTasks [] calls).length ≤ 100) ∧
    (∀ (cache : List (String × String)) (taskId b : String), b ≠ "" →
        cache.length = 100 → cache.any (fun p => p.1 == taskId) = false →
        Soak.resourceIntensiveTask cache taskId true (some b)
          = cache.tail ++ [(taskId, b)]) := by
  have h1 : ∀ (cache : List (String × String)) (taskId : String) (success : Bool)
      (body : Option String), cache.length ≤ 100 →
      (Soak.resourceIntensiveTask cache taskId success body).length ≤ 100 := by
    intro cache taskId success body h
    unfold Soak.resourceIntensiveTask
    cases body with
    | none => exact h
    | some b =>
      dsimp only
      by_cases hc : (success && (b != "")) = true
      · rw [if_pos hc]
        have hlen : (jsMapSet cache taskId b).length ≤ cache.length + 1 :=
          jsMapSet_length_le cache taskId b
        by_cases hgt : (jsMapSet cache taskId b).length > 100
        · rw [if_pos hgt]
          have htail : (jsMapSet cache taskId b).tail.length
              = (jsMapSet cache taskId b).length - 1 := List.length_tail _
          omega
        · rw [if_neg hgt]
          omega
      · rw [if_neg hc]
        exact h
  have h2 : ∀ (calls : List Soak.TaskCall) (cache : List (String × String)),
      cache.length ≤ 100 → (Soak.runTasks cache calls).length ≤ 100 := by
    intro calls
    induction calls with
    | nil =>
      intro cache h
      exact h
    | cons c cs ih =>
      intro cache h
      unfold Soak.runTasks
      exact ih _ (h1 cache c.taskId c.success c.body h)
  refine ⟨h1, fun calls => h2 calls [] (by simp), ?_⟩
  intro cache taskId b hb h100 hany
  unfold Soak.resourceIntensiveTask
  dsimp only
  rw [if_pos (by simp [hb])]
  have hset : jsMapSet cache taskId b = cache ++ [(taskId, b)] := by
    unfold jsMapSet
    rw [if_neg (by simp [hany])]
  rw [hset]
  rw [if_pos (by simp [h100])]
  cases cache with
  | nil => simp at h100
  | cons x xs => rfl

/-- Witness for C8: a fresh cache stays within bounds, and inserting a new
key into a full 100-entry cache evicts exactly the first-inserted entry. -/
theorem C8_cache_bounded_evicts_oldest_witness :
    (Soak.resourceIntensiveTask [] "t1" true (some "x")).length ≤ 100 ∧
    (Soak.runTasks [] [⟨"t1", true, some "x"⟩, ⟨"t2", false, none⟩]).length ≤ 100 ∧
    Soak.resourceIntensiveTask (List.replicate 100 ("k", "v")) "new" true (some "b")
      = (List.replicate 100 ("k", "v")).tail ++ [("new", "b")] := by
  refine ⟨?_, ?_, ?_⟩
  · exact C8_cache_bounded_evicts_oldest.1 [] "t1" true (some "x") (by decide)
  · exact C8_cache_bounded_evicts_oldest.2.1 [⟨"t1", true, some "x"⟩, ⟨"t2", false, none⟩]
  · exact C8_cache_bounded_evicts_oldest.2.2 (List.replicate 100 ("k", "v")) "new" "b"
      (by decide) (by simp) (by simp)

/-- Helper: reading back the key just written by `jsMapSet` yields the
written value. -/
theorem jsMapGet_jsMapSet_self {β : Type} (store : List (String × β))
    (k : String) (v : β) : jsMapGet (jsMapSet store k v) k = some v := by
  induction store with
  | nil => simp [jsMapSet, jsMapGet]
  | cons p ps ih =>
    unfold jsMapSet at ih ⊢
    by_cases hp : (p.1 == k) = true
    · rw [if_pos (by simp [hp])]
      simp only [List.map_cons, if_pos hp]
      simp [jsMapGet]
    · by_cases hps : (ps.any fun q => q.1 == k) = true
      · rw [if_pos (by simp [List.any_cons, hps])]
        simp only [List.map_cons, if_neg hp]
        unfold jsMapGet
        rw [if_neg hp]
        rw [if_pos hps] at ih
        exact ih
      · rw [if_neg (by simp [List.any_cons, hp, hps])]
        rw [List.cons_append]
        simp only [jsMapGet]
        rw [if_neg hp]
        rw [if_neg hps] at ih
        exact ih

/-- Helper: after `n` view invocations for an id, the stored count has grown
by exactly `n`. -/
theorem viewTimes_count (store : List (String × Nat)) (id : String) :
    ∀ n : Nat, (jsMapGet (Routes.viewTimes store id n) id).getD 0
      = (jsMapGet store id).getD 0 + n := by
  intro n
  induction n with
  | zero => rfl
  | succ n ih =>
    unfold Routes.viewTimes
    unfold Routes.postView
    dsimp only
    rw [jsMapGet_jsMapSet_self]
    simp [ih]
    omega

/-- Claim C9: for every id (including ids with no backing post) and every
store state, the view and like handlers respond 200 `success: true` with the
previously stored count (0 when unseen) plus one — there is no not-found
path — and over `n + 1` consecutive view calls the returned count is the
initial stored count plus `n + 1`. -/
theorem C9_view_like_increment_no_404 :
    ∀ (store : List (String × Nat)) (id : String) (n : Nat),
      (Routes.postView store id).2
        = ⟨200, true, (jsMapGet store id).getD 0 + 1⟩ ∧
      (Routes.postLike store id).2
        = ⟨200, true, (jsMapGet store id).getD 0 + 1⟩ ∧
      (Routes.postView (Routes.viewTimes store id n) id).2.count
        = (jsMapGet store id).getD 0 + n + 1 ∧
      (Routes.postView (Routes.viewTimes store id n) id).2.status = 200 ∧
      (Routes.postView (Routes.viewTimes store id n) id).2.success = true := by
  intro store id n
  refine ⟨rfl, rfl, ?_, rfl, rfl⟩
  show (jsMapGet (Routes.viewTimes store id n) id).getD 0 + 1
      = (jsMapGet store id).getD 0 + n + 1
  rw [viewTimes_count store id n]

/-- Claim C10: `POST /api/users` returns 400 on a missing/empty name or email
and 409 `success: false` on a duplicate email, leaving the stored user list
unchanged in every non-201 outcome; a user is appended exactly on the 201
success path. -/
theorem C10_users_post_error_atomic :
    ∀ (users : List Routes.User) (body : Option Routes.UserBody) (now : Int),
      (∀ b, body = some b →
          (Routes.falsyStr b.name || Routes.falsyStr b.email) = true →
          Routes.postUsers users body now = ⟨400, false, users⟩) ∧
      (∀ b nm em, body = some b → b.name = some nm → b.email = some em →
          nm ≠ "" → em ≠ "" → (∃ u ∈ users, u.email = em) →
          Routes.postUsers users body now = ⟨409, false, users⟩) ∧
      ((Routes.postUsers users body now).status ≠ 201 →
          (Routes.postUsers users body now).users = users) ∧
      ((Routes.postUsers users body now).status = 201 →
          (Routes.postUsers users body now).success = true ∧
          ∃ u, (Routes.postUsers users body now).users = users ++ [u]) := by
  intro users body now
  have hcases : Routes.postUsers users body now = ⟨400, false, users⟩ ∨
      Routes.postUsers users body now = ⟨409, false, users⟩ ∨
      ∃ u, Routes.postUsers users body now = ⟨201, true, users ++ [u]⟩ := by
    unfold Routes.postUsers
    cases body with
    | none => exact Or.inl rfl
    | some b =>
      dsimp only
      by_cases hf : (Routes.falsyStr b.name || Routes.falsyStr b.email) = true
      · rw [if_pos hf]
        exact Or.inl rfl
      · rw [if_neg hf]
        cases hn : b.name with
        | none => simp [Routes.falsyStr, hn] at hf
        | some nm =>
          cases he : b.email with
          | none => simp [Routes.falsyStr, he] at hf
          | some em =>
            dsimp only
            by_cases ha : (users.any fun u => u.email == em) = true
            · rw [if_pos ha]
              exact Or.inr (Or.inl rfl)
            · rw [if_neg ha]
              exact Or.inr (Or.inr ⟨_, rfl⟩)
  refine ⟨?_, ?_, ?_, ?_⟩
  · intro b hb hful
    subst hb
    unfold Routes.postUsers
    dsimp only
    rw [if_pos hful]
  · intro b nm em hb hn he hnm hem hdup
    subst hb
    unfold Routes.postUsers
    dsimp only
    rw [if_neg (by simp [Routes.falsyStr, hn, he, hnm, hem]), hn, he]
    dsimp only
    rw [if_pos ?ha]
    case ha =>
      rw [List.any_eq_true]
      obtain ⟨u, hu, hue⟩ := hdup
      exact ⟨u, hu, by simp [hue]⟩
  · intro hne
    rcases hcases with h | h | ⟨u, h⟩
    · rw [h]
    · rw [h]
    · rw [h] at hne
      exact absurd rfl hne
  · intro h201
    rcases hcases with h | h | ⟨u, h⟩
    · rw [h] at h201
      simp at h201
    · rw [h] at h201
      simp at h201
    · rw [h]
      exact ⟨rfl, u, rfl⟩

/-- Witness for C10: a duplicate email yields 409 with the list unchanged; a
missing name yields 400 with the list unchanged. -/
theorem C10_users_post_error_atomic_witness :
    Routes.postUsers [⟨"user-1", "N", "e@x.com", "a"⟩]
        (some ⟨some "M", some "e@x.com", none⟩) 7
      = ⟨409, false, [⟨"user-1", "N", "e@x.com", "a"⟩]⟩ ∧
    Routes.postUsers [] (some ⟨none, some "e", none⟩) 7 = ⟨400, false, []⟩ := by
  constructor
  · exact (C10_users_post_error_atomic [⟨"user-1", "N", "e@x.com", "a"⟩]
      (some ⟨some "M", some "e@x.com", none⟩) 7).2.1
      ⟨some "M", some "e@x.com", none⟩ "M" "e@x.com" rfl rfl rfl
      (by decide) (by decide)
      ⟨⟨"user-1", "N", "e@x.com", "a"⟩, by simp, rfl⟩
  · exact (C10_users_post_error_atomic [] (some ⟨none, some "e", none⟩) 7).1
      ⟨none, some "e", none⟩ rfl (by decide)
